import Mathlib

/-!
# Verification of the food recommendation service (`app/app.py`)

Shallow embedding of the core of `app.py`:

* the nutrition dataset (`dataset`, a JSON list of food records),
* `create_knn_model` (sklearn `NearestNeighbors(n_neighbors=5, metric='euclidean')`),
* `get_food_recommendations` (the `kneighbors` query plus the loop that builds
  the recommendation dicts, scoring with `1 / (1 + distances[0][len(recommendations)])`),
* `predict_food` and the `/predict` endpoint (temp-file staging and cleanup),
* the name lookup loop of `/recommend-by-name`,
* the macronutrient calculator `hitung_kebutuhan_makronutrien`.

Numeric values are embedded as exact rationals (`ℚ`); the Euclidean distance
used by the similarity score is `Real.sqrt` of the rational squared distance,
so scores live in `ℝ`.  Python exceptions are modelled by `Except PyError`
with the concrete Python exception kind that is raised.
-/

/-- Python exception kinds that the embedded code can raise. The source has no
error taxonomy of its own: it lets the underlying `IndexError` / `ValueError` /
`KeyError` propagate to a broad `except` that turns it into a 500 response. -/
inductive PyError
  | indexError
  | valueError
  | keyError
deriving DecidableEq, Repr

deriving instance DecidableEq for Except

/-- One record of `dataset.json`: name plus the four nutrition fields
(`Nama Makanan/Minuman`, `Kalori (kcal)`, `Karbohidrat (g)`, `Protein (g)`,
`Lemak (g)`). -/
structure FoodRecord where
  nama : String
  kalori : ℚ
  karbohidrat : ℚ
  protein : ℚ
  lemak : ℚ
deriving DecidableEq, Repr

/-- The `nutrition` dict built by the source from a dataset record. -/
structure Nutrition where
  kalori : ℚ
  karbohidrat : ℚ
  protein : ℚ
  lemak : ℚ
deriving DecidableEq, Repr

def FoodRecord.nutrition (r : FoodRecord) : Nutrition :=
  ⟨r.kalori, r.karbohidrat, r.protein, r.lemak⟩

/-- A feature vector `(Karbohidrat (g), Protein (g), Lemak (g))`, the columns
selected by `create_knn_model`. -/
abbrev Feat := ℚ × ℚ × ℚ

def FoodRecord.features (r : FoodRecord) : Feat :=
  (r.karbohidrat, r.protein, r.lemak)

/-- Squared Euclidean distance between two feature vectors.  The sklearn model
uses `metric='euclidean'`; we keep the square rational and take `Real.sqrt`
only where the actual distance enters a score. -/
def dist2 (u v : Feat) : ℚ :=
  (u.1 - v.1) * (u.1 - v.1) + (u.2.1 - v.2.1) * (u.2.1 - v.2.1) +
    (u.2.2 - v.2.2) * (u.2.2 - v.2.2)

/-- The fitted sklearn `NearestNeighbors` model: the fitted feature rows (in
catalog order) and the configured `n_neighbors`. -/
structure KnnModel where
  feats : List Feat
  n_neighbors : Nat
deriving DecidableEq, Repr

/-- The process-wide state set up by `load_models`: the global `knn_model` and
the global `dataset` (the CNN model is opaque and enters only through the
classifier outcome, see `ClassifierOut`). -/
structure AppState where
  knn : KnnModel
  dataset : List FoodRecord
deriving DecidableEq, Repr

/-- Comparison key used by the neighbor query: neighbors are ordered by
(distance, fitted index) lexicographically — ascending distance, ties broken
by catalog index ascending (squared distance orders the same way as distance). -/
def keyLe (a b : ℚ × Nat) : Prop :=
  a.1 < b.1 ∨ (a.1 = b.1 ∧ a.2 ≤ b.2)

instance : DecidableRel keyLe := fun a b => by
  unfold keyLe; infer_instance

instance : IsTotal (ℚ × Nat) keyLe := by
  constructor
  intro a b
  rcases lt_trichotomy a.1 b.1 with h | h | h
  · exact Or.inl (Or.inl h)
  · rcases Nat.le_total a.2 b.2 with h2 | h2
    · exact Or.inl (Or.inr ⟨h, h2⟩)
    · exact Or.inr (Or.inr ⟨h.symm, h2⟩)
  · exact Or.inr (Or.inl h)

instance : IsTrans (ℚ × Nat) keyLe := by
  constructor
  intro a b c hab hbc
  rcases hab with h1 | ⟨h1, h1'⟩
  · rcases hbc with h2 | ⟨h2, _⟩
    · exact Or.inl (h1.trans h2)
    · exact Or.inl (h2 ▸ h1)
  · rcases hbc with h2 | ⟨h2, h2'⟩
    · exact Or.inl (h1 ▸ h2)
    · exact Or.inr ⟨h1.trans h2, h1'.trans h2'⟩

def dummyFeat : Feat := (0, 0, 0)

/-- The (squared distance, fitted index) pairs of all fitted rows against a
query, in fitted (catalog) order. -/
def neighborPairs (feats : List Feat) (q : Feat) : List (ℚ × Nat) :=
  (List.range feats.length).map fun i => (dist2 (feats.getD i dummyFeat) q, i)

/-- `knn_model.kneighbors([q])`, returning the single result row
`(distances[0] as squared distances, indices[0])`.  sklearn raises
`ValueError` when `n_neighbors` exceeds the number of fitted samples;
otherwise both rows have length `n_neighbors`, sorted ascending by distance
with ties broken by fitted index. -/
def kneighbors (m : KnnModel) (q : Feat) : Except PyError (List ℚ × List Nat) :=
  if m.feats.length < m.n_neighbors then .error .valueError
  else
    let sorted := (List.insertionSort keyLe (neighborPairs m.feats q)).take m.n_neighbors
    .ok (sorted.map Prod.fst, sorted.map Prod.snd)

/-- One entry of the `recommendations` list built by `get_food_recommendations`,
still carrying the squared distance whose square root feeds the score
(`similarity_score = 1 / (1 + sqrt d2)`). -/
structure RecD2 where
  nama : String
  nutrition : Nutrition
  d2 : ℚ
deriving DecidableEq, Repr

/-- The loop body of `get_food_recommendations`: for each `idx` in
`indices[0]`, look up `dataset[idx]` (raising `IndexError` when out of range)
and attach the distance taken at `distances[0][len(recommendations)]` — the
position given by the *current length of the accumulator*, exactly as in the
source. -/
def recLoop (dataset : List FoodRecord) (drow : List ℚ) :
    List Nat → List RecD2 → Except PyError (List RecD2)
  | [], acc => .ok acc
  | idx :: rest, acc =>
    match dataset[idx]? with
    | none => .error .indexError
    | some food =>
      match drow[acc.length]? with
      | none => .error .indexError
      | some d => recLoop dataset drow rest (acc ++ [⟨food.nama, food.nutrition, d⟩])

/-- `get_food_recommendations(food_features)` at the level of squared
distances: run the `kneighbors` query, then the accumulation loop. -/
def get_food_recommendationsD2 (s : AppState) (q : Feat) : Except PyError (List RecD2) :=
  match kneighbors s.knn q with
  | .error e => .error e
  | .ok (drow, irow) => recLoop s.dataset drow irow []

/-- The similarity score the source computes from a distance:
`1 / (1 + d)` with `d = sqrt d2` the Euclidean distance. -/
noncomputable def scoreOfD2 (d2 : ℚ) : ℝ :=
  1 / (1 + Real.sqrt (d2 : ℝ))

/-- A finished recommendation dict: name, nutrition dict, `similarity_score`. -/
structure Recommendation where
  nama : String
  nutrition : Nutrition
  similarity_score : ℝ

noncomputable def RecD2.toRec (r : RecD2) : Recommendation :=
  ⟨r.nama, r.nutrition, scoreOfD2 r.d2⟩

/-- `get_food_recommendations(food_features)`: the recommendation list with
real-valued similarity scores. -/
noncomputable def get_food_recommendations (s : AppState) (q : Feat) :
    Except PyError (List Recommendation) :=
  (get_food_recommendationsD2 s q).map (List.map RecD2.toRec)

/-- `create_knn_model(df)`: select the three feature columns and fit
`NearestNeighbors(n_neighbors=5)`.  On an empty dataset the column selection
on the empty DataFrame raises `KeyError`; otherwise fitting succeeds —
note that `fit` does not compare the sample count with `n_neighbors`. -/
def create_knn_model (ds : List FoodRecord) : Except PyError KnnModel :=
  if ds.isEmpty then .error .keyError
  else .ok ⟨ds.map FoodRecord.features, 5⟩

/-- The application state after a successful `load_models` over dataset `ds`:
the KNN model fitted on the catalog's features with the default `n_neighbors=5`,
and the dataset itself. -/
def stateOf (ds : List FoodRecord) : AppState :=
  ⟨⟨ds.map FoodRecord.features, 5⟩, ds⟩

/-- The spec's canonical recommendation builder: each neighbor is paired with
its *own* distance, i.e. `indices[0]` is zipped positionally with
`distances[0]` ("score derived from each neighbor's own distance").  Written
from the spec's words for the refinement comparison with the source's
growing-length indexing scheme. -/
def recSpec (dataset : List FoodRecord) : List (Nat × ℚ) → Except PyError (List RecD2)
  | [] => .ok []
  | (idx, d) :: rest =>
    match dataset[idx]? with
    | none => .error .indexError
    | some food => (recSpec dataset rest).map (⟨food.nama, food.nutrition, d⟩ :: ·)

/-- Canonical (spec-side) `get_food_recommendations` at squared-distance level. -/
def get_food_recommendations_specD2 (s : AppState) (q : Feat) : Except PyError (List RecD2) :=
  match kneighbors s.knn q with
  | .error e => .error e
  | .ok (drow, irow) => recSpec s.dataset (irow.zip drow)

/-- Canonical (spec-side) `get_food_recommendations` with real scores. -/
noncomputable def get_food_recommendations_spec (s : AppState) (q : Feat) :
    Except PyError (List Recommendation) :=
  (get_food_recommendations_specD2 s q).map (List.map RecD2.toRec)

/-- `get_food_recommendations` with the global state threaded explicitly.
The Python function only reads the globals `knn_model` and `dataset` (it has
no `global` statement and assigns neither), so the state it returns is the
state it was given. -/
noncomputable def get_food_recommendationsS (s : AppState) (q : Feat) :
    Except PyError (List Recommendation) × AppState :=
  (get_food_recommendations s q, s)

/-- The outcome of `cnn_model.predict` on a decoded image:
`predicted_class = argmax` (a natural number) and its probability mass. -/
structure ClassifierOut where
  predicted_class : Nat
  confidence : ℚ
deriving DecidableEq, Repr

/-- `predict_food(image_path)` after the CNN stage: the classifier outcome (or
the exception raised while opening/preprocessing/predicting the image) is the
`classify` argument; the function then reads `dataset[predicted_class]`, which
raises the plain Python `IndexError` when the class index is out of range. -/
def predict_food (s : AppState) (classify : Except PyError ClassifierOut) :
    Except PyError (String × Nutrition × ℚ) :=
  match classify with
  | .error e => .error e
  | .ok c =>
    match s.dataset[c.predicted_class]? with
    | none => .error .indexError
    | some food => .ok (food.nama, food.nutrition, c.confidence)

/-- An uploaded file as the `/predict` endpoint sees it: the filename and the
outcome that `Image.open` + preprocessing + `cnn_model.predict` would produce
on its bytes (the CNN itself is an opaque model artifact). -/
structure Upload where
  filename : String
  classify : Except PyError ClassifierOut

/-- A response of the `/predict` endpoint: either the combined result or an
error response with its HTTP status (400 for missing/empty file, 500 for any
exception caught by the broad `except`). -/
inductive Response where
  | ok (food_name : String) (confidence : ℚ) (nutrition : Nutrition)
      (recommendations : List Recommendation)
  | err (status : Nat)

/-- The `/predict` endpoint.  `files` is the set of staged temp files (the
observable temp-storage state); `upload` is `request.files['file']` when
present.  The source saves the upload to `temp/<filename>`, runs
`predict_food`, removes the temp file, then runs `get_food_recommendations`;
any exception jumps to the `except` clause, which returns a 500 response
*without* touching the temp file. -/
noncomputable def predict (s : AppState) (files : List String) (upload : Option Upload) :
    Response × List String :=
  match upload with
  | none => (.err 400, files)
  | some u =>
    if u.filename = "" then (.err 400, files)
    else
      let path := "temp/" ++ u.filename
      let files1 := files ++ [path]
      match predict_food s u.classify with
      | .error _ => (.err 500, files1)
      | .ok (nm, nut, conf) =>
        let files2 := files1.erase path
        match get_food_recommendations s (nut.karbohidrat, nut.protein, nut.lemak) with
        | .error _ => (.err 500, files2)
        | .ok recs => (.ok nm conf nut recs, files2)

/-- Python's `str.lower()`: lowercase every character (ASCII case mapping,
which covers this dataset's names). -/
def pyLower (s : String) : String :=
  ⟨s.data.map Char.toLower⟩

/-- The name lookup of `/recommend-by-name`: lowercase the query, scan the
dataset in order, return the first record whose lowercased name matches;
`none` (→ a 404 response, not an exception) when nothing matches. -/
def find_food_by_name (dataset : List FoodRecord) (query : String) : Option FoodRecord :=
  dataset.find? fun food => pyLower food.nama == pyLower query

/-- `hitung_kebutuhan_makronutrien(tdee)`: 55% / 20% / 25% of the energy to
carbohydrate / protein / fat, converted to grams at 4 / 4 / 9 kcal per gram. -/
def hitung_kebutuhan_makronutrien (tdee : ℚ) : ℚ × ℚ × ℚ :=
  let kalori_karbohidrat := tdee * 0.55
  let kalori_protein := tdee * 0.20
  let kalori_lemak := tdee * 0.25
  (kalori_karbohidrat / 4, kalori_protein / 4, kalori_lemak / 9)

/-! ## Helper lemmas -/

theorem dist2_nonneg (u v : Feat) : 0 ≤ dist2 u v := by
  unfold dist2
  have h1 := mul_self_nonneg (u.1 - v.1)
  have h2 := mul_self_nonneg (u.2.1 - v.2.1)
  have h3 := mul_self_nonneg (u.2.2 - v.2.2)
  linarith

theorem dist2_eq_zero {u v : Feat} : dist2 u v = 0 ↔ u = v := by
  constructor
  · intro h
    unfold dist2 at h
    have h1 := mul_self_nonneg (u.1 - v.1)
    have h2 := mul_self_nonneg (u.2.1 - v.2.1)
    have h3 := mul_self_nonneg (u.2.2 - v.2.2)
    have e1 : (u.1 - v.1) * (u.1 - v.1) = 0 := by linarith
    have e2 : (u.2.1 - v.2.1) * (u.2.1 - v.2.1) = 0 := by linarith
    have e3 : (u.2.2 - v.2.2) * (u.2.2 - v.2.2) = 0 := by linarith
    have f1 : u.1 = v.1 := by have := mul_self_eq_zero.mp e1; linarith
    have f2 : u.2.1 = v.2.1 := by have := mul_self_eq_zero.mp e2; linarith
    have f3 : u.2.2 = v.2.2 := by have := mul_self_eq_zero.mp e3; linarith
    exact Prod.ext f1 (Prod.ext f2 f3)
  · rintro rfl
    unfold dist2
    ring

theorem scoreOfD2_zero : scoreOfD2 0 = 1 := by
  unfold scoreOfD2
  norm_num

theorem scoreOfD2_pos (d : ℚ) : 0 < scoreOfD2 d := by
  unfold scoreOfD2
  have h : 0 ≤ Real.sqrt (d : ℝ) := Real.sqrt_nonneg _
  positivity

theorem scoreOfD2_anti {d d' : ℚ} (h : d ≤ d') : scoreOfD2 d' ≤ scoreOfD2 d := by
  unfold scoreOfD2
  have hc : ((d : ℝ)) ≤ (d' : ℝ) := by exact_mod_cast h
  have hs : Real.sqrt (d : ℝ) ≤ Real.sqrt (d' : ℝ) := Real.sqrt_le_sqrt hc
  have h0 : (0 : ℝ) < 1 + Real.sqrt (d : ℝ) := by
    have := Real.sqrt_nonneg (d : ℝ); linarith
  exact one_div_le_one_div_of_le h0 (by linarith)

theorem mem_neighborPairs {feats : List Feat} {q : Feat} {p : ℚ × Nat} :
    p ∈ neighborPairs feats q ↔
      p.2 < feats.length ∧ p.1 = dist2 (feats.getD p.2 dummyFeat) q := by
  unfold neighborPairs
  simp only [List.mem_map, List.mem_range]
  constructor
  · rintro ⟨i, hi, rfl⟩
    exact ⟨hi, rfl⟩
  · rintro ⟨hi, hp⟩
    exact ⟨p.2, hi, Prod.ext hp.symm rfl⟩

theorem snd_neighborPairs (feats : List Feat) (q : Feat) :
    (neighborPairs feats q).map Prod.snd = List.range feats.length := by
  unfold neighborPairs
  rw [List.map_map]
  simp [Function.comp_def]

theorem length_neighborPairs (feats : List Feat) (q : Feat) :
    (neighborPairs feats q).length = feats.length := by
  unfold neighborPairs
  simp

/-- The sorted, truncated (squared distance, index) rows produced by a
successful `kneighbors` call. -/
def sortedPairs (m : KnnModel) (q : Feat) : List (ℚ × Nat) :=
  (List.insertionSort keyLe (neighborPairs m.feats q)).take m.n_neighbors

theorem kneighbors_eq {m : KnnModel} (q : Feat) (h : m.n_neighbors ≤ m.feats.length) :
    kneighbors m q = .ok ((sortedPairs m q).map Prod.fst, (sortedPairs m q).map Prod.snd) := by
  unfold kneighbors sortedPairs
  rw [if_neg (by omega)]

theorem kneighbors_err {m : KnnModel} (q : Feat) (h : m.feats.length < m.n_neighbors) :
    kneighbors m q = .error .valueError := by
  unfold kneighbors
  rw [if_pos h]

theorem sortedPairs_pairwise (m : KnnModel) (q : Feat) :
    (sortedPairs m q).Pairwise keyLe :=
  List.Pairwise.sublist (List.take_sublist _ _) (List.sorted_insertionSort keyLe _)

theorem sortedPairs_length {m : KnnModel} (q : Feat) (h : m.n_neighbors ≤ m.feats.length) :
    (sortedPairs m q).length = m.n_neighbors := by
  unfold sortedPairs
  rw [List.length_take, List.length_insertionSort, length_neighborPairs]
  omega

theorem mem_sortedPairs {m : KnnModel} {q : Feat} {p : ℚ × Nat}
    (hp : p ∈ sortedPairs m q) : p ∈ neighborPairs m.feats q :=
  (List.perm_insertionSort keyLe _).mem_iff.mp ((List.take_sublist _ _).mem hp)

theorem sortedPairs_snd_nodup (m : KnnModel) (q : Feat) :
    ((sortedPairs m q).map Prod.snd).Nodup := by
  have hperm : List.Perm ((List.insertionSort keyLe (neighborPairs m.feats q)).map Prod.snd)
      ((neighborPairs m.feats q).map Prod.snd) :=
    (List.perm_insertionSort keyLe _).map Prod.snd
  have hnodup : ((List.insertionSort keyLe (neighborPairs m.feats q)).map Prod.snd).Nodup := by
    rw [hperm.nodup_iff, snd_neighborPairs]
    exact List.nodup_range _
  exact ((List.take_sublist _ _).map Prod.snd).nodup hnodup

/-- Elements of a list of pairs: zipping the `fst` projections with the `snd`
projections gives back the list. -/
theorem zip_fst_snd {α β : Type} : ∀ l : List (α × β), (l.map Prod.fst).zip (l.map Prod.snd) = l
  | [] => rfl
  | p :: rest => by
    simp only [List.map_cons, List.zip_cons_cons, zip_fst_snd rest]

/-- Zipping the `snd` projections with the `fst` projections swaps every pair. -/
theorem zip_snd_fst {α β : Type} :
    ∀ l : List (α × β), (l.map Prod.snd).zip (l.map Prod.fst) = l.map fun p => (p.2, p.1)
  | [] => rfl
  | p :: rest => by
    simp only [List.map_cons, List.zip_cons_cons, zip_snd_fst rest]

/-- The sorted pairs are *strictly* lexicographically increasing: strictly
increasing distance, or equal distance and strictly increasing catalog index. -/
theorem sortedPairs_strict (m : KnnModel) (q : Feat) :
    (sortedPairs m q).Pairwise fun a b => a.1 < b.1 ∨ (a.1 = b.1 ∧ a.2 < b.2) := by
  have h1 := sortedPairs_pairwise m q
  have h2 : (sortedPairs m q).Pairwise fun a b : ℚ × Nat => a.2 ≠ b.2 :=
    List.pairwise_map.mp (sortedPairs_snd_nodup m q)
  refine (h1.and h2).imp ?_
  rintro a b ⟨hk, hne⟩
  rcases hk with hlt | ⟨heq, hle⟩
  · exact Or.inl hlt
  · exact Or.inr ⟨heq, lt_of_le_of_ne hle hne⟩

def emptyFood : FoodRecord := ⟨"", 0, 0, 0, 0⟩

/-- The recommendation entry built for a `(squared distance, index)` pair. -/
def recOfKey (dataset : List FoodRecord) (p : ℚ × Nat) : RecD2 :=
  ⟨(dataset.getD p.2 emptyFood).nama, (dataset.getD p.2 emptyFood).nutrition, p.1⟩

/-- The source's accumulation loop — which indexes the distance row by the
*growing length of the accumulator* — agrees with the canonical builder that
pairs every neighbor with its own (positional) distance, as long as the
distance row is at least as long as the index row. -/
theorem recLoop_eq_recSpec (dataset : List FoodRecord) (drow : List ℚ) :
    ∀ (irow : List Nat) (acc : List RecD2), acc.length + irow.length ≤ drow.length →
      recLoop dataset drow irow acc =
        (recSpec dataset (irow.zip (drow.drop acc.length))).map (acc ++ ·) := by
  intro irow
  induction irow with
  | nil =>
    intro acc _
    simp [recLoop, recSpec, Except.map]
  | cons i rest ih =>
    intro acc hlen
    have hlt : acc.length < drow.length := by
      simp only [List.length_cons] at hlen; omega
    obtain ⟨x, tail, hdrop⟩ : ∃ x tail, drow.drop acc.length = x :: tail := by
      cases hd : drow.drop acc.length with
      | nil =>
        exfalso
        have hl : (drow.drop acc.length).length = drow.length - acc.length :=
          List.length_drop _ _
        rw [hd] at hl
        simp only [List.length_nil] at hl
        omega
      | cons x tail => exact ⟨x, tail, rfl⟩
    have hx : drow[acc.length]? = some x := by
      have h0 : (drow.drop acc.length)[0]? = some x := by rw [hdrop]; simp
      rwa [List.getElem?_drop, Nat.add_zero] at h0
    have htail : tail = drow.drop (acc.length + 1) := by
      have hdd : (drow.drop acc.length).drop 1 = drow.drop (acc.length + 1) := by
        rw [List.drop_drop, Nat.add_comm]
      rw [hdrop] at hdd
      simpa using hdd
    subst htail
    rw [hdrop, List.zip_cons_cons]
    show (match dataset[i]? with
      | none => .error .indexError
      | some food =>
        match drow[acc.length]? with
        | none => .error .indexError
        | some d => recLoop dataset drow rest (acc ++ [⟨food.nama, food.nutrition, d⟩])) =
      (recSpec dataset ((i, x) :: rest.zip (drow.drop (acc.length + 1)))).map (acc ++ ·)
    cases hds : dataset[i]? with
    | none => simp [recSpec, hds, Except.map]
    | some food =>
      rw [hx]
      show recLoop dataset drow rest (acc ++ [⟨food.nama, food.nutrition, x⟩]) =
        (recSpec dataset ((i, x) :: rest.zip (drow.drop (acc.length + 1)))).map (acc ++ ·)
      have hlen1 : (acc ++ [(⟨food.nama, food.nutrition, x⟩ : RecD2)]).length
          = acc.length + 1 := by simp
      have ih' := ih (acc ++ [⟨food.nama, food.nutrition, x⟩]) (by
        rw [hlen1]
        simp only [List.length_cons] at hlen
        omega)
      rw [hlen1] at ih'
      rw [ih']
      simp only [recSpec, hds]
      cases hrec : recSpec dataset (rest.zip (drow.drop (acc.length + 1))) with
      | error e => simp [Except.map]
      | ok l =>
        simp only [Except.map]
        rw [List.append_cons acc _ l, List.append_assoc]

theorem recSpec_ok (dataset : List FoodRecord) :
    ∀ prs : List (Nat × ℚ), (∀ p ∈ prs, p.1 < dataset.length) →
      recSpec dataset prs = .ok (prs.map fun p => recOfKey dataset (p.2, p.1)) := by
  intro prs
  induction prs with
  | nil => intro _; rfl
  | cons p rest ih =>
    intro h
    obtain ⟨i, d⟩ := p
    have hi : i < dataset.length := h (i, d) (List.mem_cons_self _ _)
    show (match dataset[i]? with
      | none => Except.error PyError.indexError
      | some food => (recSpec dataset rest).map
          ((⟨food.nama, food.nutrition, d⟩ : RecD2) :: ·)) = _
    rw [List.getElem?_eq_getElem hi, ih fun p hp => h p (List.mem_cons_of_mem _ hp)]
    simp [Except.map, recOfKey, List.getD_eq_getElem?_getD, List.getElem?_eq_getElem hi]

/-- A well-formed application state over catalog `ds` with neighbor count `k`:
the KNN model fitted (in order) on the catalog's feature vectors. -/
def mkState (ds : List FoodRecord) (k : Nat) : AppState :=
  ⟨⟨ds.map FoodRecord.features, k⟩, ds⟩

theorem stateOf_eq_mkState (ds : List FoodRecord) : stateOf ds = mkState ds 5 := rfl

theorem mem_sortedPairs_lt {ds : List FoodRecord} {k : Nat} {q : Feat} {p : ℚ × Nat}
    (hp : p ∈ sortedPairs (mkState ds k).knn q) : p.2 < ds.length := by
  have h := (mem_neighborPairs.mp (mem_sortedPairs hp)).1
  simpa [mkState] using h

/-- Closed form of `get_food_recommendationsD2` over a well-formed state with
enough catalog entries: the recommendation list is the sorted pair list mapped
to dataset entries, each carrying its own squared distance. -/
theorem gfrD2_eq (ds : List FoodRecord) (k : Nat) (q : Feat) (h : k ≤ ds.length) :
    get_food_recommendationsD2 (mkState ds k) q =
      .ok ((sortedPairs (mkState ds k).knn q).map (recOfKey ds)) := by
  have hfl : (mkState ds k).knn.feats.length = ds.length := by simp [mkState]
  have hkn : kneighbors (mkState ds k).knn q =
      .ok ((sortedPairs (mkState ds k).knn q).map Prod.fst,
           (sortedPairs (mkState ds k).knn q).map Prod.snd) :=
    kneighbors_eq q (by rw [hfl]; exact h)
  unfold get_food_recommendationsD2
  rw [hkn]
  have hlen : ((sortedPairs (mkState ds k).knn q).map Prod.snd).length ≤
      ((sortedPairs (mkState ds k).knn q).map Prod.fst).length := by
    simp
  have hloop := recLoop_eq_recSpec ds ((sortedPairs (mkState ds k).knn q).map Prod.fst)
    ((sortedPairs (mkState ds k).knn q).map Prod.snd) [] (by simp)
  simp only [List.length_nil, List.drop_zero] at hloop
  show recLoop (mkState ds k).dataset
      ((sortedPairs (mkState ds k).knn q).map Prod.fst)
      ((sortedPairs (mkState ds k).knn q).map Prod.snd) [] = _
  rw [show (mkState ds k).dataset = ds from rfl, hloop, zip_snd_fst]
  rw [recSpec_ok ds _ ?_]
  · rw [List.map_map]
    simp [Except.map]
  · intro pr hpr
    rw [List.mem_map] at hpr
    obtain ⟨p, hp, rfl⟩ := hpr
    exact mem_sortedPairs_lt hp

/-- For every state (any fitted model and dataset), the source's
growing-length-indexed recommendation builder computes exactly the canonical
one: the rows returned by `kneighbors` always have equal length, so
`distances[0][len(recommendations)]` is each neighbor's own distance. -/
theorem gfrD2_eq_specD2 (s : AppState) (q : Feat) :
    get_food_recommendationsD2 s q = get_food_recommendations_specD2 s q := by
  unfold get_food_recommendationsD2 get_food_recommendations_specD2
  by_cases hk : s.knn.feats.length < s.knn.n_neighbors
  · rw [kneighbors_err q hk]
  · push_neg at hk
    rw [kneighbors_eq q hk]
    show recLoop s.dataset ((sortedPairs s.knn q).map Prod.fst)
        ((sortedPairs s.knn q).map Prod.snd) [] =
      recSpec s.dataset
        (((sortedPairs s.knn q).map Prod.snd).zip ((sortedPairs s.knn q).map Prod.fst))
    have hloop := recLoop_eq_recSpec s.dataset ((sortedPairs s.knn q).map Prod.fst)
      ((sortedPairs s.knn q).map Prod.snd) [] (by simp)
    simp only [List.length_nil, List.drop_zero] at hloop
    rw [hloop]
    cases recSpec s.dataset
        (((sortedPairs s.knn q).map Prod.snd).zip ((sortedPairs s.knn q).map Prod.fst)) with
    | error e => rfl
    | ok l => simp [Except.map]

/-- When the sorted pair list starts with `p0`, `p0` is a `keyLe`-minimum of
all (distance, index) pairs: the whole fitted set, not just the taken prefix. -/
theorem sortedPairs_head_min {m : KnnModel} {q : Feat} {p0 : ℚ × Nat} {ps : List (ℚ × Nat)}
    (hs : sortedPairs m q = p0 :: ps) :
    ∀ p ∈ neighborPairs m.feats q, p = p0 ∨ keyLe p0 p := by
  unfold sortedPairs at hs
  cases hSS : List.insertionSort keyLe (neighborPairs m.feats q) with
  | nil => rw [hSS] at hs; simp at hs
  | cons a S =>
    rw [hSS] at hs
    cases hk : m.n_neighbors with
    | zero => rw [hk] at hs; simp at hs
    | succ n =>
      rw [hk, List.take_succ_cons] at hs
      obtain ⟨rfl, -⟩ : a = p0 ∧ S.take n = ps := by
        exact ⟨(List.cons.injEq _ _ _ _ ▸ hs).1, (List.cons.injEq _ _ _ _ ▸ hs).2⟩
      intro p hp
      have hmem : p ∈ a :: S := by
        rw [← hSS]
        exact ((List.perm_insertionSort keyLe _).mem_iff).mpr hp
      rcases List.mem_cons.mp hmem with h | h
      · exact Or.inl h
      · have hsorted : List.Sorted keyLe (a :: S) := by
          rw [← hSS]; exact List.sorted_insertionSort keyLe _
        exact Or.inr (List.rel_of_sorted_cons hsorted p h)

/-- In a well-formed state, the fitted feature row `i` is the feature vector
of catalog record `i`. -/
theorem featAt (ds : List FoodRecord) (i : Nat) (hi : i < ds.length) :
    (ds.map FoodRecord.features).getD i dummyFeat = (ds[i]).features := by
  rw [List.getD_eq_getElem _ _ (by simpa using hi), List.getElem_map]

/-! ## Claim theorems -/

/-- C10: for every TDEE value `t`, the gram amounts returned by
`hitung_kebutuhan_makronutrien` satisfy `4·carbs + 4·protein + 9·fat = t`
under exact rational arithmetic: the 55%/20%/25% calorie split accounts for
exactly the whole input energy. -/
theorem makronutrien_preserves_tdee (tdee : ℚ) :
    4 * (hitung_kebutuhan_makronutrien tdee).1 +
      4 * (hitung_kebutuhan_makronutrien tdee).2.1 +
      9 * (hitung_kebutuhan_makronutrien tdee).2.2 = tdee := by
  unfold hitung_kebutuhan_makronutrien
  norm_num
  ring

/-- C4: `get_food_recommendations` is deterministic and pure: with the global
state threaded explicitly, two successive calls with the same query return the
same recommendation list, and neither call changes the state (catalog or
fitted index). -/
theorem recommend_deterministic_pure (s : AppState) (q : Feat) :
    (get_food_recommendationsS s q).1 =
        (get_food_recommendationsS (get_food_recommendationsS s q).2 q).1 ∧
      (get_food_recommendationsS s q).2 = s ∧
      (get_food_recommendationsS (get_food_recommendationsS s q).2 q).2 = s :=
  ⟨rfl, rfl, rfl⟩

/-- C2: for every state and query, the source's scoring scheme — indexing the
distance row by the growing length of the recommendation list — produces
exactly the recommendation list of the canonical scheme in which each
neighbor's score is derived from that neighbor's own distance. -/
theorem score_scheme_eq_canonical (s : AppState) (q : Feat) :
    get_food_recommendations s q = get_food_recommendations_spec s q := by
  unfold get_food_recommendations get_food_recommendations_spec
  rw [gfrD2_eq_specD2]

/-- `find?` returns the head of the filtered list: the first match in order. -/
theorem find_eq_head_filter {α : Type} (p : α → Bool) :
    ∀ l : List α, l.find? p = (l.filter p).head?
  | [] => rfl
  | x :: rest => by
    by_cases hx : p x
    · rw [List.find?_cons_of_pos _ hx, List.filter_cons_of_pos hx, List.head?_cons]
    · rw [List.find?_cons_of_neg _ (by simpa using hx), List.filter_cons_of_neg (by simpa using hx),
        find_eq_head_filter p rest]

/-- C7: name lookup is a case-insensitive exact match: queries that agree up
to letter case return the same result, the result is the first matching
record in catalog order, and an absent name yields `none` rather than an
error. -/
theorem find_food_case_insensitive :
    (∀ (ds : List FoodRecord) (n₁ n₂ : String), pyLower n₁ = pyLower n₂ →
        find_food_by_name ds n₁ = find_food_by_name ds n₂) ∧
    (∀ (ds : List FoodRecord) (n : String),
        find_food_by_name ds n = (ds.filter fun f => pyLower f.nama == pyLower n).head?) ∧
    (∀ (ds : List FoodRecord) (n : String),
        (∀ f ∈ ds, pyLower f.nama ≠ pyLower n) → find_food_by_name ds n = none) := by
  refine ⟨?_, ?_, ?_⟩
  · intro ds n₁ n₂ h
    unfold find_food_by_name
    rw [h]
  · intro ds n
    unfold find_food_by_name
    exact find_eq_head_filter _ ds
  · intro ds n h
    unfold find_food_by_name
    rw [List.find?_eq_none]
    intro f hf
    simpa using h f hf

/-- C8 (amended): fitting the KNN model succeeds for every non-empty catalog —
including catalogs smaller than the neighbor count — because `fit` performs no
size check; the size check happens only at query time, where `kneighbors`
raises a plain `ValueError` when `N < 5` and succeeds when `N ≥ 5`. -/
theorem build_and_query_sizes (ds : List FoodRecord) (h : ds ≠ []) :
    create_knn_model ds = .ok ⟨ds.map FoodRecord.features, 5⟩ ∧
    (ds.length < 5 → ∀ q, kneighbors ⟨ds.map FoodRecord.features, 5⟩ q = .error .valueError) ∧
    (5 ≤ ds.length → ∀ q, ∃ rows, kneighbors ⟨ds.map FoodRecord.features, 5⟩ q = .ok rows) := by
  refine ⟨?_, ?_, ?_⟩
  · unfold create_knn_model
    rw [if_neg (by simpa using h)]
  · intro hlt q
    exact kneighbors_err q (by simpa using hlt)
  · intro hge q
    exact ⟨_, kneighbors_eq q (by simpa using hge)⟩

/-- C3 (amended): when the classifier's class index is at or beyond the
catalog size, `predict_food` raises the plain `IndexError` from
`dataset[predicted_class]` (no dedicated catalog-mismatch error exists in the
code), the `/predict` endpoint surfaces it as a 500 error response, and the
recommendation stage is never executed — the response is independent of the
fitted nearest-neighbor model. -/
theorem out_of_range_fails_no_recommendation (s : AppState) (c : ClassifierOut)
    (u : Upload) (files : List String)
    (hc : s.dataset.length ≤ c.predicted_class) (hu : u.classify = .ok c)
    (hname : ¬ u.filename = "") :
    predict_food s u.classify = .error .indexError ∧
    (predict s files (some u)).1 = .err 500 ∧
    ∀ knn2 : KnnModel, predict ⟨knn2, s.dataset⟩ files (some u) = predict s files (some u) := by
  have hget : s.dataset[c.predicted_class]? = none := by
    rw [List.getElem?_eq_none_iff]
    exact hc
  have hpf : predict_food s u.classify = .error .indexError := by
    rw [hu]
    show (match s.dataset[c.predicted_class]? with
      | none => Except.error PyError.indexError
      | some food => Except.ok (food.nama, food.nutrition, c.confidence)) = .error .indexError
    rw [hget]
  refine ⟨hpf, ?_, ?_⟩
  · simp [predict, hname, hpf]
  · intro knn2
    have hpf2 : predict_food ⟨knn2, s.dataset⟩ u.classify = .error .indexError := by
      rw [hu]
      show (match s.dataset[c.predicted_class]? with
        | none => Except.error PyError.indexError
        | some food => Except.ok (food.nama, food.nutrition, c.confidence)) = .error .indexError
      rw [hget]
    simp [predict, hname, hpf, hpf2]

theorem dist2_self (v : Feat) : dist2 v v = 0 := by
  unfold dist2; ring

/-- C1 (amended): for a catalog with at least `k = 5` records, every query
returns a recommendation list of length exactly `min 5 N = 5`, sorted by
non-decreasing distance — equivalently non-increasing similarity score — with
ties broken by catalog index ascending (the underlying (distance, index) rows
are strictly lexicographically increasing). -/
theorem recommend_sorted_and_length (ds : List FoodRecord) (q : Feat) (h : 5 ≤ ds.length) :
    ∃ (recs : List RecD2) (drow : List ℚ) (irow : List Nat),
      kneighbors (stateOf ds).knn q = .ok (drow, irow) ∧
      get_food_recommendationsD2 (stateOf ds) q = .ok recs ∧
      get_food_recommendations (stateOf ds) q = .ok (recs.map RecD2.toRec) ∧
      recs.length = min 5 ds.length ∧
      recs.Pairwise (fun a b => a.d2 ≤ b.d2) ∧
      (recs.map RecD2.toRec).Pairwise
        (fun a b => b.similarity_score ≤ a.similarity_score) ∧
      recs.map RecD2.d2 = drow ∧
      (drow.zip irow).Pairwise fun a b => a.1 < b.1 ∨ (a.1 = b.1 ∧ a.2 < b.2) := by
  have hst : stateOf ds = mkState ds 5 := rfl
  have hfl : (mkState ds 5).knn.feats.length = ds.length := by simp [mkState]
  have hk : (mkState ds 5).knn.n_neighbors ≤ (mkState ds 5).knn.feats.length := by
    rw [hfl]; exact h
  refine ⟨(sortedPairs (mkState ds 5).knn q).map (recOfKey ds),
    (sortedPairs (mkState ds 5).knn q).map Prod.fst,
    (sortedPairs (mkState ds 5).knn q).map Prod.snd, ?_, ?_, ?_, ?_, ?_, ?_, ?_, ?_⟩
  · rw [hst]; exact kneighbors_eq q hk
  · rw [hst]; exact gfrD2_eq ds 5 q h
  · rw [hst]
    unfold get_food_recommendations
    rw [gfrD2_eq ds 5 q h]
    rfl
  · rw [List.length_map, sortedPairs_length q hk]
    have hn : (mkState ds 5).knn.n_neighbors = 5 := rfl
    rw [hn]
    omega
  · rw [List.pairwise_map]
    refine (sortedPairs_pairwise _ q).imp ?_
    intro a b hab
    show a.1 ≤ b.1
    rcases hab with hlt | ⟨heq, -⟩
    · exact le_of_lt hlt
    · exact le_of_eq heq
  · rw [List.pairwise_map, List.pairwise_map]
    refine (sortedPairs_pairwise _ q).imp ?_
    intro a b hab
    show scoreOfD2 b.1 ≤ scoreOfD2 a.1
    refine scoreOfD2_anti ?_
    rcases hab with hlt | ⟨heq, -⟩
    · exact le_of_lt hlt
    · exact le_of_eq heq
  · rw [List.map_map]
    rfl
  · rw [zip_fst_snd]
    exact sortedPairs_strict _ q

/-- C5 (amended): if the query equals the feature vector of catalog record
`j` (catalog of size ≥ 5), the first recommendation has distance 0 and
similarity score exactly 1, and it is the record at the *least* index whose
feature vector equals the query — which is `j` itself whenever no earlier
record duplicates those features. -/
theorem exact_match_first_result (ds : List FoodRecord) (q : Feat) (j : Nat) (r : FoodRecord)
    (h5 : 5 ≤ ds.length) (hj : ds[j]? = some r) (hf : r.features = q) :
    ∃ (j0 : Nat) (r0 : FoodRecord) (rest : List RecD2),
      j0 ≤ j ∧ ds[j0]? = some r0 ∧ r0.features = q ∧
      (∀ i ri, i < j0 → ds[i]? = some ri → ri.features ≠ q) ∧
      get_food_recommendationsD2 (stateOf ds) q = .ok (⟨r0.nama, r0.nutrition, 0⟩ :: rest) ∧
      get_food_recommendations (stateOf ds) q =
        .ok (⟨r0.nama, r0.nutrition, 1⟩ :: rest.map RecD2.toRec) := by
  have hst : stateOf ds = mkState ds 5 := rfl
  have hfl : (mkState ds 5).knn.feats.length = ds.length := by simp [mkState]
  have hk : (mkState ds 5).knn.n_neighbors ≤ (mkState ds 5).knn.feats.length := by
    rw [hfl]; show 5 ≤ ds.length; exact h5
  obtain ⟨hjlt, hjval⟩ := List.getElem?_eq_some_iff.mp hj
  -- the pair of any index whose features equal the query
  have hpair : ∀ i (hi : i < ds.length), (ds[i]).features = q →
      ((0 : ℚ), i) ∈ neighborPairs (mkState ds 5).knn.feats q := by
    intro i hi hiq
    refine mem_neighborPairs.mpr ⟨by rwa [hfl], ?_⟩
    show (0 : ℚ) = dist2 ((mkState ds 5).knn.feats.getD i dummyFeat) q
    rw [show (mkState ds 5).knn.feats = ds.map FoodRecord.features from rfl, featAt ds i hi,
      hiq, dist2_self]
  -- the sorted pair list is non-empty
  obtain ⟨p0, ps, hs⟩ : ∃ p0 ps, sortedPairs (mkState ds 5).knn q = p0 :: ps := by
    cases hss : sortedPairs (mkState ds 5).knn q with
    | nil =>
      exfalso
      have := sortedPairs_length q hk
      rw [hss] at this
      simp [mkState] at this
    | cons p0 ps => exact ⟨p0, ps, rfl⟩
  have hmin := sortedPairs_head_min hs
  -- p0 itself is a neighbor pair
  have hp0mem : p0 ∈ neighborPairs (mkState ds 5).knn.feats q :=
    mem_sortedPairs (hs ▸ List.mem_cons_self _ _)
  obtain ⟨hp0lt, hp0d⟩ := mem_neighborPairs.mp hp0mem
  have hp0lt' : p0.2 < ds.length := by rwa [hfl] at hp0lt
  have hp0feat : (ds.map FoodRecord.features).getD p0.2 dummyFeat = (ds[p0.2]).features :=
    featAt ds p0.2 hp0lt'
  have hp0d' : p0.1 = dist2 ((ds[p0.2]).features) q := by
    rw [← hp0feat]; exact hp0d
  -- head distance is zero and head index is minimal among exact matches
  have hj0 : p0.1 = 0 ∧ p0.2 ≤ j := by
    rcases hmin (0, j) (hpair j hjlt (by rw [hjval, hf])) with heq | hle
    · rw [← heq]
      exact ⟨rfl, le_refl j⟩
    · rcases hle with hlt | ⟨heq0, hle2⟩
      · exfalso
        have h0 : (0 : ℚ) ≤ p0.1 := hp0d' ▸ dist2_nonneg _ _
        exact absurd hlt (not_lt.mpr h0)
      · exact ⟨heq0, hle2⟩
  have hfeat0 : (ds[p0.2]).features = q := by
    have : dist2 ((ds[p0.2]).features) q = 0 := by rw [← hp0d']; exact hj0.1
    exact dist2_eq_zero.mp this
  refine ⟨p0.2, ds[p0.2], ps.map (recOfKey ds), hj0.2,
    List.getElem?_eq_getElem hp0lt', hfeat0, ?_, ?_, ?_⟩
  · -- minimality: no earlier record has the query's features
    intro i ri hilt hds hriq
    obtain ⟨hi, hival⟩ := List.getElem?_eq_some_iff.mp hds
    rcases hmin (0, i) (hpair i hi (by rw [hival, hriq])) with heq | hle
    · have : p0.2 = i := by rw [← heq]
      omega
    · rcases hle with hlt | ⟨-, hle2⟩
      · have h0 : (0 : ℚ) ≤ p0.1 := hp0d' ▸ dist2_nonneg _ _
        exact absurd hlt (not_lt.mpr h0)
      · omega
  · have hhd : recOfKey ds p0 =
        (⟨(ds[p0.2]).nama, (ds[p0.2]).nutrition, 0⟩ : RecD2) := by
      unfold recOfKey
      rw [List.getD_eq_getElem ds emptyFood hp0lt', hj0.1]
    rw [hst, gfrD2_eq ds 5 q h5, hs, List.map_cons, hhd]
  · have hhd : RecD2.toRec (recOfKey ds p0) =
        (⟨(ds[p0.2]).nama, (ds[p0.2]).nutrition, 1⟩ : Recommendation) := by
      unfold recOfKey RecD2.toRec
      rw [List.getD_eq_getElem ds emptyFood hp0lt']
      show (⟨(ds[p0.2]).nama, (ds[p0.2]).nutrition, scoreOfD2 p0.1⟩ : Recommendation) = _
      rw [hj0.1, scoreOfD2_zero]
    unfold get_food_recommendations
    rw [hst, gfrD2_eq ds 5 q h5, hs]
    show Except.ok (((p0 :: ps).map (recOfKey ds)).map RecD2.toRec) = _
    rw [List.map_cons, List.map_cons, hhd, List.map_map]

/-! ## Concrete catalogs for scenarios, counterexamples and witnesses -/

def foodA : FoodRecord := ⟨"A", 0, 10, 5, 2⟩

def foodB : FoodRecord := ⟨"B", 0, 12, 5, 2⟩

def foodC : FoodRecord := ⟨"C", 0, 50, 1, 20⟩

/-- The spec's scenario catalog `[A, B, C]`. -/
def dsABC : List FoodRecord := [foodA, foodB, foodC]

/-- The scenario state: `NearestNeighbors(n_neighbors=2)` fitted over
`[A, B, C]` (the scenario fixes `k = 2`). -/
def stABC : AppState := ⟨⟨dsABC.map FoodRecord.features, 2⟩, dsABC⟩

/-- A five-record catalog whose first two records share a feature vector. -/
def dsDup : List FoodRecord :=
  [⟨"dup0", 0, 1, 1, 1⟩, ⟨"dup1", 0, 1, 1, 1⟩, ⟨"bayam", 0, 2, 2, 2⟩,
   ⟨"tahu", 0, 3, 3, 3⟩, ⟨"tempe", 0, 4, 4, 4⟩]

/-- A single-record catalog (size 1 < 5). -/
def dsSolo : List FoodRecord := [⟨"solo", 0, 1, 1, 1⟩]

/-- A small named catalog for the name-lookup witness. -/
def dsNasi : List FoodRecord :=
  [⟨"Nasi Goreng", 267, 40, 10, 8⟩, ⟨"Ayam Bakar", 200, 5, 30, 10⟩]

/-- The name of the first recommendation, when the call succeeds and returns a
non-empty list. -/
def firstRecName (s : AppState) (q : Feat) : Option String :=
  match get_food_recommendationsD2 s q with
  | .ok (r :: _) => some r.nama
  | _ => none

section ConcreteEvaluation

attribute [local semireducible] Rat.mul Rat.add Rat.sub Rat.inv

/-- C6: on the catalog `[A(10,5,2), B(12,5,2), C(50,1,20)]` with `k = 2` and
query `(10,5,2)`, `get_food_recommendations` returns exactly
`[A with score 1, B with score 1/(1+2)]`, in that order. -/
theorem scenario_abc_k2 :
    get_food_recommendations stABC (10, 5, 2) =
      .ok [⟨"A", ⟨0, 10, 5, 2⟩, 1⟩, ⟨"B", ⟨0, 12, 5, 2⟩, 1 / (1 + 2)⟩] := by
  have hd2 : get_food_recommendationsD2 stABC (10, 5, 2) =
      .ok [⟨"A", ⟨0, 10, 5, 2⟩, 0⟩, ⟨"B", ⟨0, 12, 5, 2⟩, 4⟩] := by decide
  have h4 : scoreOfD2 4 = 1 / (1 + 2) := by
    unfold scoreOfD2
    rw [show ((4 : ℚ) : ℝ) = 2 ^ 2 by norm_num, Real.sqrt_sq (by norm_num : (0:ℝ) ≤ 2)]
  unfold get_food_recommendations
  rw [hd2]
  show Except.ok ([⟨"A", ⟨0, 10, 5, 2⟩, 0⟩,
    (⟨"B", ⟨0, 12, 5, 2⟩, 4⟩ : RecD2)].map RecD2.toRec) = _
  simp [RecD2.toRec, scoreOfD2_zero, h4]

/-- C9: the `/predict` endpoint leaks the staged temp file when a downstream
stage fails: an upload whose image processing raises leaves `temp/bad.jpg` in
temp storage while the endpoint answers with a 500 error — the claim's
"cleanup on every path" does not hold on the failure path. -/
theorem temp_file_leak_on_failure :
    predict (stateOf dsDup) [] (some ⟨"bad.jpg", .error .valueError⟩) =
      (.err 500, ["temp/" ++ "bad.jpg"]) := rfl

/-- C1 counterexample: on a catalog of size 3 (< 5 = default `n_neighbors`)
the recommendation call raises `ValueError` instead of returning a list of
length `min 5 3 = 3`. -/
theorem recommend_small_catalog_errors :
    get_food_recommendationsD2 (stateOf dsABC) (10, 5, 2) = .error .valueError ∧
    dsABC.length = 3 ∧
    get_food_recommendations (stateOf dsABC) (10, 5, 2) = .error .valueError := by
  refine ⟨by decide, by decide, ?_⟩
  unfold get_food_recommendations
  rw [show get_food_recommendationsD2 (stateOf dsABC) (10, 5, 2)
    = .error .valueError by decide]
  rfl

/-- C3 counterexample: with catalog size 5 and classifier output
`class_index = 7`, `predict_food` fails with the *plain* `IndexError` (the
code has no `CatalogMismatchError`), surfaced by the endpoint as a 500 error. -/
theorem out_of_range_gives_index_error :
    predict_food (stateOf dsDup) (.ok ⟨7, 9 / 10⟩) = .error .indexError ∧
    dsDup.length = 5 ∧
    (predict (stateOf dsDup) [] (some ⟨"img.jpg", .ok ⟨7, 9 / 10⟩⟩)).1 = .err 500 :=
  ⟨by decide, by decide, rfl⟩

/-- C5 counterexample: the query equals the features of the record at index 1
(`dup1`), yet the first recommendation is the equal-featured record at index 0
(`dup0`) — with duplicate feature vectors the least matching index wins, not
the matched index itself. -/
theorem duplicate_features_first_result :
    firstRecName (stateOf dsDup) (1, 1, 1) = some "dup0" ∧
    dsDup[1]? = some ⟨"dup1", 0, 1, 1, 1⟩ ∧
    (⟨"dup1", 0, 1, 1, 1⟩ : FoodRecord).features = (1, 1, 1) ∧
    some "dup0" ≠ some "dup1" :=
  ⟨by decide, by decide, by decide, by decide⟩

/-- C8 counterexample: fitting the KNN model on a catalog of size 1 (< 5)
*succeeds* — the build does not fail with any insufficient-data error. -/
theorem small_catalog_build_succeeds :
    create_knn_model dsSolo = .ok ⟨[(1, 1, 1)], 5⟩ ∧ dsSolo.length < 5 :=
  ⟨by decide, by decide⟩

end ConcreteEvaluation

section WitnessEvaluation

attribute [local semireducible] Rat.mul Rat.add Rat.sub Rat.inv

/-- Witness for C1 (amended): the sorted-output theorem instantiated on the
concrete five-record catalog `dsDup` and query `(0,0,0)`. -/
theorem recommend_sorted_and_length_witness :
    5 ≤ dsDup.length ∧
    ∃ (recs : List RecD2) (drow : List ℚ) (irow : List Nat),
      kneighbors (stateOf dsDup).knn (0, 0, 0) = .ok (drow, irow) ∧
      get_food_recommendationsD2 (stateOf dsDup) (0, 0, 0) = .ok recs ∧
      get_food_recommendations (stateOf dsDup) (0, 0, 0) = .ok (recs.map RecD2.toRec) ∧
      recs.length = min 5 dsDup.length ∧
      recs.Pairwise (fun a b => a.d2 ≤ b.d2) ∧
      (recs.map RecD2.toRec).Pairwise
        (fun a b => b.similarity_score ≤ a.similarity_score) ∧
      recs.map RecD2.d2 = drow ∧
      (drow.zip irow).Pairwise (fun a b => a.1 < b.1 ∨ (a.1 = b.1 ∧ a.2 < b.2)) :=
  ⟨by decide, recommend_sorted_and_length dsDup (0, 0, 0) (by decide)⟩

/-- Witness for C3 (amended): the out-of-range theorem instantiated with
catalog size 5, class index 7, a non-empty filename and an empty temp store. -/
theorem out_of_range_fails_no_recommendation_witness :
    ((stateOf dsDup).dataset.length ≤ 7 ∧
      (Upload.mk "img.jpg" (.ok ⟨7, 9 / 10⟩)).classify = .ok ⟨7, 9 / 10⟩ ∧
      ¬ (Upload.mk "img.jpg" (.ok ⟨7, 9 / 10⟩)).filename = "") ∧
    (predict_food (stateOf dsDup) (Upload.mk "img.jpg" (.ok ⟨7, 9 / 10⟩)).classify =
        .error .indexError ∧
      (predict (stateOf dsDup) [] (some (Upload.mk "img.jpg" (.ok ⟨7, 9 / 10⟩)))).1 =
        .err 500 ∧
      ∀ knn2 : KnnModel,
        predict ⟨knn2, (stateOf dsDup).dataset⟩ [] (some (Upload.mk "img.jpg" (.ok ⟨7, 9 / 10⟩))) =
          predict (stateOf dsDup) [] (some (Upload.mk "img.jpg" (.ok ⟨7, 9 / 10⟩)))) :=
  ⟨⟨by decide, rfl, by decide⟩,
    out_of_range_fails_no_recommendation (stateOf dsDup) ⟨7, 9 / 10⟩
      (Upload.mk "img.jpg" (.ok ⟨7, 9 / 10⟩)) [] (by decide) rfl (by decide)⟩

/-- Witness for C5 (amended): the exact-match theorem instantiated at index 2
of `dsDup` (features `(2,2,2)`, unique in the catalog). -/
theorem exact_match_first_result_witness :
    (5 ≤ dsDup.length ∧ dsDup[2]? = some ⟨"bayam", 0, 2, 2, 2⟩ ∧
      (⟨"bayam", 0, 2, 2, 2⟩ : FoodRecord).features = (2, 2, 2)) ∧
    ∃ (j0 : Nat) (r0 : FoodRecord) (rest : List RecD2),
      j0 ≤ 2 ∧ dsDup[j0]? = some r0 ∧ r0.features = (2, 2, 2) ∧
      (∀ i ri, i < j0 → dsDup[i]? = some ri → ri.features ≠ (2, 2, 2)) ∧
      get_food_recommendationsD2 (stateOf dsDup) (2, 2, 2) =
        .ok (⟨r0.nama, r0.nutrition, 0⟩ :: rest) ∧
      get_food_recommendations (stateOf dsDup) (2, 2, 2) =
        .ok (⟨r0.nama, r0.nutrition, 1⟩ :: rest.map RecD2.toRec) :=
  ⟨⟨by decide, by decide, by decide⟩,
    exact_match_first_result dsDup (2, 2, 2) 2 ⟨"bayam", 0, 2, 2, 2⟩
      (by decide) (by decide) (by decide)⟩

/-- Witness for C7: case-insensitivity and absence on the concrete catalog
`dsNasi`: `"Nasi Goreng"` and `"nasi goreng"` give the same lookup result, and
the absent name `"soto"` yields `none`. -/
theorem find_food_case_insensitive_witness :
    (pyLower "Nasi Goreng" = pyLower "nasi goreng" ∧
      find_food_by_name dsNasi "Nasi Goreng" = find_food_by_name dsNasi "nasi goreng") ∧
    ((∀ f ∈ dsNasi, pyLower f.nama ≠ pyLower "soto") ∧
      find_food_by_name dsNasi "soto" = none) :=
  ⟨⟨by decide, find_food_case_insensitive.1 dsNasi "Nasi Goreng" "nasi goreng" (by decide)⟩,
    ⟨by decide, find_food_case_insensitive.2.2 dsNasi "soto" (by decide)⟩⟩

/-- Witness for C8 (amended): the build/query-size theorem instantiated on the
non-empty five-record catalog `dsDup`. -/
theorem build_and_query_sizes_witness :
    dsDup ≠ [] ∧
    (create_knn_model dsDup = .ok ⟨dsDup.map FoodRecord.features, 5⟩ ∧
      (dsDup.length < 5 → ∀ q, kneighbors ⟨dsDup.map FoodRecord.features, 5⟩ q =
        .error .valueError) ∧
      (5 ≤ dsDup.length → ∀ q, ∃ rows, kneighbors ⟨dsDup.map FoodRecord.features, 5⟩ q =
        .ok rows)) :=
  ⟨by decide, build_and_query_sizes dsDup (by decide)⟩

end WitnessEvaluation
